import Mathlib

/-!
Shallow embedding of `gpu_watchdog.py` (repository aapdo/gpu_monitor).

The embedding covers the per-host reconciliation logic of `process_group`
(lines 267-353), the host-universe fold of the orchestrator (lines 260-271),
and `load_state` (lines 52-77).

Modelling choices, each traced to the source:
- A host record is a Python dict read exclusively through `.get(key, default)`
  (defaults: falsy / 0), so it is modelled as a structure whose fields carry
  those defaults; a key that is absent from the dict and a key stored with its
  falsy default are indistinguishable to the program.
- Timestamps are ISO strings in the source (always truthy when present,
  `None` when cleared); they are modelled as `Option Nat` with truthiness
  given by `Option.isSome`.  `REBOOT_DELAY` is `timedelta(minutes=2)`,
  modelled as 120 seconds; `delay_minutes = int(120/60) = 2`.
- `host_state = group_state.get(host, {})` (line 269) returns the stored dict
  object itself, so every later read of `host_state` in the same iteration
  (lines 306, 309, 315, 336) observes the in-place mutations performed through
  `group_state[host][...]` in the scheduled-reboot block (lines 277-301).
  The model therefore threads a single record value through the branches.
  The wholesale re-bindings `group_state[host] = {...}` (lines 324, 345) are
  the last statements of their branches, so no read ever sees a stale alias.
- Side effects (`reboot_host`, `send_slack`) are emitted as an effect list in
  program order.
-/

/-- One per-host record of the state file, as read by `process_group` through
`dict.get` with falsy defaults (`gpu_watchdog.py` lines 56-63, 269). -/
structure HostRecord where
  last_gpu_ok : Bool
  reboot_scheduled_at : Option Nat
  reboot_done : Bool
  reboot_fail_count : Nat
  reboot_failed_notified : Bool
  persistent_failure_notified : Bool
  last_checked : Option Nat
deriving Repr, DecidableEq

/-- The record an untracked host gets: `group_state.get(host, {})` yields the
empty dict, whose every `.get` returns the falsy default. -/
def emptyRecord : HostRecord :=
  { last_gpu_ok := false
    reboot_scheduled_at := none
    reboot_done := false
    reboot_fail_count := 0
    reboot_failed_notified := false
    persistent_failure_notified := false
    last_checked := none }

/-- GPU check period constants: `REBOOT_DELAY = timedelta(minutes=2)`
(line 21), in seconds. -/
def REBOOT_DELAY : Nat := 120

/-- The `delay_minutes = int(REBOOT_DELAY.total_seconds() / 60)` computation of
line 316. -/
def delayMinutes : Nat := REBOOT_DELAY / 60

/-- Side-effect requests emitted while reconciling one host, in program order.
`rebootFailedNotify` is the Slack message of line 285 (carries the fail
count), `rebootRequest` the `reboot_host` call of line 321, `gpuDownNotify`
the Slack message of line 331, `persistentFailureNotify` line 310,
`recoveredNotify` line 339. -/
inductive Effect where
  | rebootFailedNotify (count : Nat)
  | rebootRequest (delay : Nat)
  | gpuDownNotify (delay : Nat)
  | persistentFailureNotify
  | recoveredNotify
deriving Repr, DecidableEq

/-- The canonical clean record written by the healthy branch
(`gpu_watchdog.py` lines 345-353). -/
def cleanRecord (nowTs : Nat) : HostRecord :=
  { last_gpu_ok := true
    reboot_scheduled_at := none
    reboot_done := false
    reboot_fail_count := 0
    reboot_failed_notified := false
    persistent_failure_notified := false
    last_checked := some nowTs }

/-- Reconciliation of one host inside the `for host in all_hosts` loop of
`process_group` (`gpu_watchdog.py` lines 267-353).

`prior` is `group_state.get(host, {})`; `gpuOk` is
`gpu_status.get(host, None)` (`none` = host did not respond).  The first
block (lines 277-301) runs when `reboot_scheduled_at` is truthy and mutates
the record in place; because `host_state` aliases the stored dict, the second
block's reads (lines 306, 309, 315) observe those mutations, which the model
reflects by reading the updated record `r1`.  The `if` of line 304 tests
`not gpu_ok and gpu_ok is not None`, i.e. `gpu_ok is False`; its `else`
(line 334) therefore also receives the no-response case `gpu_ok is None`. -/
def processHost (prior : HostRecord) (gpuOk : Option Bool) (nowTs : Nat) :
    HostRecord × List Effect :=
  -- Case 1 (lines 277-301): a reboot is scheduled.
  let step1 : HostRecord × List Effect :=
    if prior.reboot_scheduled_at.isSome then
      match gpuOk with
      | none =>
        -- Case 1-1 (lines 279-292): no response, count a reboot failure.
        let failCount := prior.reboot_fail_count + 1
        let notified : HostRecord × List Effect :=
          if 2 ≤ failCount ∧ prior.reboot_failed_notified = false then
            ({ prior with reboot_failed_notified := true },
             [Effect.rebootFailedNotify failCount])
          else (prior, [])
        ({ notified.1 with
            reboot_fail_count := failCount
            last_gpu_ok := false
            reboot_done := false
            last_checked := some nowTs },
         notified.2)
      | some _ =>
        -- Case 1-2 (lines 295-301): host answered, reboot succeeded.
        ({ prior with
            reboot_done := true
            reboot_fail_count := 0
            reboot_failed_notified := false
            last_checked := some nowTs },
         [])
    else (prior, [])
  let r1 := step1.1
  let e1 := step1.2
  -- Case 2 (line 304): `not gpu_ok and gpu_ok is not None` ⟺ gpu_ok is False.
  if gpuOk = some false then
    if r1.reboot_done then
      -- Case 2-1 (lines 306-312): persistent failure after reboot.
      let step2 : HostRecord × List Effect :=
        if r1.persistent_failure_notified = false then
          ({ r1 with persistent_failure_notified := true },
           [Effect.persistentFailureNotify])
        else (r1, [])
      ({ step2.1 with last_checked := some nowTs }, e1 ++ step2.2)
    else if r1.reboot_scheduled_at.isNone then
      -- Case 2-2 (lines 315-331): first detection, schedule a reboot.
      ({ last_gpu_ok := false,
         reboot_scheduled_at := some (nowTs + REBOOT_DELAY),
         reboot_done := false,
         reboot_fail_count := 0,
         reboot_failed_notified := false,
         persistent_failure_notified := false,
         last_checked := some nowTs },
       e1 ++ [Effect.rebootRequest delayMinutes, Effect.gpuDownNotify delayMinutes])
    else (r1, e1)
  else
    -- Case 3 (lines 334-353): the `else` of line 304, reached when
    -- `gpu_ok` is True or None; wholesale reset to the clean record.
    let e3 : List Effect :=
      if r1.reboot_done then [Effect.recoveredNotify] else []
    (cleanRecord nowTs, e1 ++ e3)

/-- One group's slice of the state, `state[group]`, as a lookup function
(host name to stored record, `none` for untracked hosts). -/
abbrev GroupStateFn := String → Option HostRecord

/-- The per-group host loop of `process_group` (lines 267-353): fold
`processHost` over a list of hosts, each host reading and writing only its
own entry, collecting host-tagged effects in iteration order. -/
def processHosts (gs : GroupStateFn) (probe : String → Option Bool)
    (nowTs : Nat) : List String → GroupStateFn × List (String × Effect)
  | [] => (gs, [])
  | h :: rest =>
    let step := processHost ((gs h).getD emptyRecord) (probe h) nowTs
    let gs2 : GroupStateFn := fun s => if s = h then some step.1 else gs s
    let tail := processHosts gs2 probe nowTs rest
    (tail.1, step.2.map (fun e => (h, e)) ++ tail.2)

/-- A group's stored state and the global store as finite association data
for `load_state` (`state.json` is `{"FARM": {...}, "LAB": {...}}`). -/
abbrev GroupState := List (String × HostRecord)

/-- Global state: group name to group state. -/
abbrev GlobalState := List (String × GroupState)

/-- Result of `load_state`: either a usable state or an uncaught exception
that aborts startup. -/
inductive LoadResult where
  | ok (s : GlobalState)
  | fatalError
deriving Repr, DecidableEq

/-- The `load_state` function (`gpu_watchdog.py` lines 52-77).  The file
system is modelled as `Option String` (`none` = `FileNotFoundError` on open)
and `json.load` as a `parse` function (`none` = a `JSONDecodeError`, which
the `try`/`except FileNotFoundError` does not catch, so it propagates as a
fatal startup error). -/
def load_state (parse : String → Option GlobalState)
    (file : Option String) : LoadResult :=
  match file with
  | none => LoadResult.ok [("FARM", []), ("LAB", [])]
  | some contents =>
    match parse contents with
    | some s => LoadResult.ok s
    | none => LoadResult.fatalError

/-! Theorems about the reconciliation step. -/

/-- C1: with `reboot_scheduled_at` set and no probe response in two
consecutive cycles, the code does not accumulate `reboot_fail_count` and
never emits a reboot-failed notification: the `else` of line 334 (the
healthy branch) also receives the no-response case and wipes the record to
the canonical clean record in each cycle, so after the second cycle the
fail count is 0, not 2, and no notification was emitted in either cycle. -/
theorem scheduled_no_response_twice_wiped_clean :
    (processHost { emptyRecord with reboot_scheduled_at := some 100 } none 200).1
      = cleanRecord 200 ∧
    (processHost { emptyRecord with reboot_scheduled_at := some 100 } none 200).2 = [] ∧
    (processHost
        (processHost { emptyRecord with reboot_scheduled_at := some 100 } none 200).1
        none 300).1 = cleanRecord 300 ∧
    (processHost
        (processHost { emptyRecord with reboot_scheduled_at := some 100 } none 200).1
        none 300).2 = [] := by
  decide

/-- C2: with `reboot_scheduled_at` set and no probe response, the same cycle
clears `reboot_scheduled_at`: after the in-flight block runs, the host falls
into the healthy `else` branch (line 334) which replaces the record with the
clean record, so the marker is not retained. -/
theorem scheduled_no_response_clears_marker :
    (processHost { emptyRecord with reboot_scheduled_at := some 100 } none 200).1.reboot_scheduled_at
      = none := by
  decide

/-- C3: with `reboot_scheduled_at` set, `reboot_done = false` and a probe
answer of `false`, the cycle sets `reboot_done := true` (line 298) and,
because `host_state` aliases the live record, the check of line 306 sees the
value just written and the persistent-failure notification fires in this
same cycle, contrary to the gating on the prior record. -/
theorem reboot_confirmed_notifies_same_cycle :
    (processHost { emptyRecord with reboot_scheduled_at := some 100 } (some false) 200).1.reboot_done
      = true ∧
    (processHost { emptyRecord with reboot_scheduled_at := some 100 } (some false) 200).2
      = [Effect.persistentFailureNotify] := by
  decide

/-- C4: a probe answer of `true` always yields the canonical clean record,
whatever the prior record (the untracked case is the all-default
`emptyRecord`), differing only in the `last_checked` stamp it carries. -/
theorem healthy_probe_yields_clean_record (prior : HostRecord) (t : Nat) :
    (processHost prior (some true) t).1 = cleanRecord t := by
  unfold processHost
  by_cases h : prior.reboot_scheduled_at.isSome <;> simp [h]

/-- C7: reconciling an untracked host (empty store, prior record is the
empty dict) with a probe answer of `false` issues exactly one reboot request
with the configured 2-minute delay, emits exactly one GPU-down notification,
and writes the record `{last_gpu_ok := false, reboot_scheduled_at := now +
delay, reboot_done := false, last_checked := now}` whose fail count and
notification latches are the (absent-key) defaults. -/
theorem first_detection_schedules_reboot (t : Nat) :
    processHost emptyRecord (some false) t =
      ({ last_gpu_ok := false,
         reboot_scheduled_at := some (t + REBOOT_DELAY),
         reboot_done := false,
         reboot_fail_count := 0,
         reboot_failed_notified := false,
         persistent_failure_notified := false,
         last_checked := some t },
       [Effect.rebootRequest 2, Effect.gpuDownNotify 2]) := by
  rfl

/-- C8: `load_state` returns the empty global state when the store file is
missing (the `except FileNotFoundError` branch), while a file that exists
but fails to parse raises through the handler and is a fatal startup error,
never silently discarded. -/
theorem load_state_missing_empty_malformed_fatal
    (parse : String → Option GlobalState) (contents : String)
    (h : parse contents = none) :
    load_state parse none = LoadResult.ok [("FARM", []), ("LAB", [])] ∧
    load_state parse (some contents) = LoadResult.fatalError := by
  refine ⟨rfl, ?_⟩
  simp [load_state, h]

/-- C8 witness: a concrete parse failure on concrete contents. -/
theorem load_state_missing_empty_malformed_fatal_witness :
    (fun _ : String => (none : Option GlobalState)) "x" = none ∧
    (load_state (fun _ => none) none = LoadResult.ok [("FARM", []), ("LAB", [])] ∧
     load_state (fun _ => none) (some "x") = LoadResult.fatalError) :=
  ⟨rfl, load_state_missing_empty_malformed_fatal (fun _ => none) "x" rfl⟩

/-- C10 counterexample: a tracked record with no `reboot_scheduled_at` but
`reboot_done = true`, reconciled with no probe response, does emit a
notification (the recovered-after-reboot message of line 339), refuting the
claim that every no-reboot-in-flight record yields no notification on a
no-response cycle. -/
theorem no_sched_no_response_can_notify :
    ({ emptyRecord with reboot_done := true } : HostRecord).reboot_scheduled_at = none ∧
    (processHost { emptyRecord with reboot_done := true } none 9).2
      = [Effect.recoveredNotify] := by
  decide

/-- C10 amended: for a tracked record with no `reboot_scheduled_at` and
`reboot_done = false`, a no-response cycle overwrites the record with the
canonical clean record (so `last_gpu_ok := true` and `last_checked` is
advanced with no observation made) and emits no notification and no reboot
request. -/
theorem no_sched_no_response_recorded_healthy (r : HostRecord) (t : Nat)
    (hs : r.reboot_scheduled_at = none) (hd : r.reboot_done = false) :
    processHost r none t = (cleanRecord t, []) := by
  unfold processHost
  simp [hs, hd]

/-- C10 amended witness: the empty record satisfies both hypotheses. -/
theorem no_sched_no_response_recorded_healthy_witness :
    emptyRecord.reboot_scheduled_at = none ∧ emptyRecord.reboot_done = false ∧
    processHost emptyRecord none 4 = (cleanRecord 4, []) :=
  ⟨rfl, rfl, no_sched_no_response_recorded_healthy emptyRecord 4 rfl rfl⟩

/-- C5: with `reboot_done = true` and the persistent-failure latch still
unset, a probe answer of `false` emits the still-unhealthy notification and
sets the latch; running the identical cycle again on the updated record
emits nothing further. -/
theorem persistent_failure_notifies_once (r : HostRecord) (t1 t2 : Nat)
    (hdone : r.reboot_done = true)
    (hpfn : r.persistent_failure_notified = false) :
    (processHost r (some false) t1).2 = [Effect.persistentFailureNotify] ∧
    (processHost r (some false) t1).1.persistent_failure_notified = true ∧
    (processHost (processHost r (some false) t1).1 (some false) t2).2 = [] := by
  unfold processHost
  by_cases h : r.reboot_scheduled_at.isSome <;>
    simp [h, hdone, hpfn]

/-- C5 witness: a concrete rebooted-and-still-unhealthy record. -/
theorem persistent_failure_notifies_once_witness :
    ({ emptyRecord with reboot_done := true } : HostRecord).reboot_done = true ∧
    ({ emptyRecord with reboot_done := true } : HostRecord).persistent_failure_notified = false ∧
    ((processHost { emptyRecord with reboot_done := true } (some false) 1).2
        = [Effect.persistentFailureNotify] ∧
     (processHost { emptyRecord with reboot_done := true } (some false) 1).1.persistent_failure_notified
        = true ∧
     (processHost (processHost { emptyRecord with reboot_done := true } (some false) 1).1
        (some false) 2).2 = []) :=
  ⟨rfl, rfl, persistent_failure_notifies_once { emptyRecord with reboot_done := true } 1 2 rfl rfl⟩

/-- Preservation lemma for C6: one reconciliation step keeps the property
that a confirmed reboot coexists only with a zero fail count. -/
lemma processHost_done_fail_count (r : HostRecord) (p : Option Bool) (t : Nat)
    (h : r.reboot_done = true → r.reboot_fail_count = 0) :
    (processHost r p t).1.reboot_done = true →
      (processHost r p t).1.reboot_fail_count = 0 := by
  unfold processHost
  match p with
  | none =>
    by_cases hs : r.reboot_scheduled_at.isSome <;> simp [hs, cleanRecord]
  | some true =>
    by_cases hs : r.reboot_scheduled_at.isSome <;> simp [hs, cleanRecord]
  | some false =>
    by_cases hs : r.reboot_scheduled_at.isSome
    · by_cases hp : r.persistent_failure_notified = false <;> simp [hs, hp]
    · by_cases hd : r.reboot_done
      · by_cases hp : r.persistent_failure_notified = false <;>
          simp [hs, hd, hp, h hd]
      · simp [hs, hd, Option.isNone_iff_eq_none.mpr, Option.not_isSome_iff_eq_none.mp hs]

/-- Records reachable from the untracked initial record by reconciliation
steps with arbitrary probe results and timestamps. -/
inductive ReachableRecord : HostRecord → Prop where
  | init : ReachableRecord emptyRecord
  | step (r : HostRecord) (p : Option Bool) (t : Nat) :
      ReachableRecord r → ReachableRecord (processHost r p t).1

/-- C6: on every reachable record, a confirmed reboot (`reboot_done = true`)
and an accumulated fail count (`reboot_fail_count > 0`) never hold
simultaneously. -/
theorem reachable_done_excludes_fail_count (r : HostRecord)
    (h : ReachableRecord r) :
    ¬ (r.reboot_done = true ∧ 0 < r.reboot_fail_count) := by
  have key : r.reboot_done = true → r.reboot_fail_count = 0 := by
    induction h with
    | init => intro _; rfl
    | step r p t hr ih => exact processHost_done_fail_count r p t ih
  rintro ⟨hd, hc⟩
  rw [key hd] at hc
  exact Nat.lt_irrefl 0 hc

/-- C6 witness: a two-step reachable record with `reboot_done = true`
(failure detected, then the host answered the next probe). -/
theorem reachable_done_excludes_fail_count_witness :
    ¬ ((processHost (processHost emptyRecord (some false) 0).1 (some false) 300).1.reboot_done = true ∧
       0 < (processHost (processHost emptyRecord (some false) 0).1 (some false) 300).1.reboot_fail_count) :=
  reachable_done_excludes_fail_count _
    (ReachableRecord.step _ (some false) 300
      (ReachableRecord.step _ (some false) 0 ReachableRecord.init))

/-- State characterization for C9: with distinct hosts, the fold's final
state at each host depends only on that host's own prior record and probe
result. -/
lemma processHosts_state_eq (probe : String → Option Bool) (t : Nat) :
    ∀ (l : List String) (gs : GroupStateFn), l.Nodup → ∀ h : String,
      (processHosts gs probe t l).1 h =
        if h ∈ l then some (processHost ((gs h).getD emptyRecord) (probe h) t).1
        else gs h := by
  intro l
  induction l with
  | nil =>
    intro gs _ h
    simp [processHosts]
  | cons a rest ih =>
    intro gs hnd h
    obtain ⟨hna, hrest⟩ := List.nodup_cons.mp hnd
    simp only [processHosts]
    rw [ih _ hrest h]
    by_cases hmem : h ∈ rest
    · have hha : ¬ h = a := fun e => hna (e ▸ hmem)
      simp [hmem, hha]
    · by_cases hha : h = a
      · subst hha
        simp [hmem]
      · simp [hmem, hha]

/-- Effect characterization for C9: with distinct hosts, the fold's emitted
effects are the concatenation, in iteration order, of each host's own
effects computed from its prior record. -/
lemma processHosts_effects_eq (probe : String → Option Bool) (t : Nat) :
    ∀ (l : List String) (gs : GroupStateFn), l.Nodup →
      (processHosts gs probe t l).2 =
        l.flatMap (fun h =>
          ((processHost ((gs h).getD emptyRecord) (probe h) t).2).map (fun e => (h, e))) := by
  intro l
  induction l with
  | nil =>
    intro gs _
    simp [processHosts]
  | cons a rest ih =>
    intro gs hnd
    obtain ⟨hna, hrest⟩ := List.nodup_cons.mp hnd
    simp only [processHosts, List.flatMap_cons]
    rw [ih _ hrest]
    congr 1
    refine List.flatMap_congr ?_
    intro x hx
    have hxa : ¬ x = a := fun e => hna (e ▸ hx)
    simp [hxa]

/-- C9: processing the same set of hosts in any two orders yields the same
final per-host records and, up to order, the same emitted side-effect
requests. -/
theorem host_processing_order_irrelevant (gs : GroupStateFn)
    (probe : String → Option Bool) (t : Nat) (l1 l2 : List String)
    (hnd : l1.Nodup) (hp : l1.Perm l2) :
    (processHosts gs probe t l1).1 = (processHosts gs probe t l2).1 ∧
    (processHosts gs probe t l1).2.Perm (processHosts gs probe t l2).2 := by
  have hnd2 : l2.Nodup := hp.nodup hnd
  constructor
  · funext h
    rw [processHosts_state_eq probe t l1 gs hnd h,
        processHosts_state_eq probe t l2 gs hnd2 h]
    simp [hp.mem_iff]
  · rw [processHosts_effects_eq probe t l1 gs hnd,
        processHosts_effects_eq probe t l2 gs hnd2]
    exact hp.flatMap_right _

/-- C9 witness: two hosts processed in both orders, one tracked record and
one failing probe. -/
theorem host_processing_order_irrelevant_witness :
    (["a", "b"] : List String).Nodup ∧
    (["a", "b"] : List String).Perm ["b", "a"] ∧
    ((processHosts (fun _ => none) (fun _ => some false) 0 ["a", "b"]).1 =
        (processHosts (fun _ => none) (fun _ => some false) 0 ["b", "a"]).1 ∧
      (processHosts (fun _ => none) (fun _ => some false) 0 ["a", "b"]).2.Perm
        (processHosts (fun _ => none) (fun _ => some false) 0 ["b", "a"]).2) :=
  ⟨by decide, by decide,
   host_processing_order_irrelevant (fun _ => none) (fun _ => some false) 0
     ["a", "b"] ["b", "a"] (by decide) (by decide)⟩
